import Mathlib

/-!
Verification of the natural-language specification of the git helper
`t/helper/test-run-command.c` against a shallow embedding of that file.

The helper exercises the parallel process-execution engine
(`run_processes_parallel`) through several callback sets:

* `parallel_next` / `no_job` / `task_finished` for the
  `run-command-parallel`, `run-command-abort` and `run-command-no-jobs`
  scenarios, and
* `next_test` / `test_finished` / `test_failed` together with the
  `testsuite` driver for the mini test-suite runner.

C `struct strbuf` output buffers are embedded as `String` (append-only in
this code), `struct string_list` as `List String`, `struct argv_array` as
`List String`, and the C `int` return codes as `Int`.  Each C callback
mutates some of its arguments through pointers; the embedding passes those
arguments in and returns the updated values in a result structure whose
fields mirror the mutated C objects.
-/

/-- Embedding of the parts of C `struct child_process` this file touches:
`argv` (the command read by `parallel_next` from its context) and `args`
(the argv-array the callbacks push onto). -/
structure ChildProcess where
  argv : List String
  args : List String
deriving Repr, DecidableEq

/-- Result of one `parallel_next` call: the C function returns an `int` and
may mutate the global counter `number_callbacks`, the child process `cp`
and the output buffer `err`. -/
structure ParallelNextResult where
  ret : Int
  number_callbacks : Nat
  cp : ChildProcess
  err : String
deriving Repr, DecidableEq

/-- Embedding of `parallel_next` (test-run-command.c).  `number_callbacks`
is the file-scoped global counter; `d` is the callback context (`cb`),
a `struct child_process` whose `argv` holds the command to run. -/
def parallel_next (number_callbacks : Nat) (cp : ChildProcess) (err : String)
    (d : ChildProcess) : ParallelNextResult :=
  if 4 ≤ number_callbacks then
    { ret := 0, number_callbacks := number_callbacks, cp := cp, err := err }
  else
    { ret := 1
      number_callbacks := number_callbacks + 1
      cp := { cp with args := cp.args ++ d.argv }
      err := err ++ "preloaded output of a child\n" }

/-- Result of one `no_job` call. -/
structure NoJobResult where
  ret : Int
  cp : ChildProcess
  err : String
deriving Repr, DecidableEq

/-- Embedding of `no_job` (test-run-command.c): appends a line to the
output buffer and reports exhaustion (return 0); `cp` and the context `cb`
are untouched. -/
def no_job (cp : ChildProcess) (err : String) (cb : ChildProcess) : NoJobResult :=
  { ret := 0, cp := cp, err := err ++ "no further jobs available\n" }

/-- Result of one `task_finished` call. -/
structure TaskFinishedResult where
  ret : Int
  err : String
deriving Repr, DecidableEq

/-- Embedding of `task_finished` (test-run-command.c), the completion
handler of the `run-command-abort` and `run-command-no-jobs` scenarios:
appends a line to the buffer and returns 1 for every exit status, context
and token. -/
def task_finished (result : Int) (err : String) (pp_cb : ChildProcess)
    (pp_task_cb : Option String) : TaskFinishedResult :=
  { ret := 1, err := err ++ "asking for a quick stop\n" }

/-- Embedding of `struct testsuite` (test-run-command.c).  `tests.nr` is
`tests.length`; the C `int next` is only ever 0 or a count of dequeued
tests, hence `Nat`. -/
structure Testsuite where
  tests : List String
  failed : List String
  next : Nat
  quiet : Bool
  immediate : Bool
  verbose : Bool
  trace : Bool
deriving Repr, DecidableEq

/-- Result of one `next_test` call: return code, updated suite state,
updated child process, updated output buffer, and the correlation token
stored through `*task_cb` (none when the function returned before setting
it). -/
structure NextTestResult where
  ret : Int
  suite : Testsuite
  cp : ChildProcess
  err : String
  task_cb : Option String
deriving Repr, DecidableEq

/-- Embedding of `next_test` (test-run-command.c): when tests remain,
dequeues `tests[next]`, pushes `sh <test>` plus the option flags onto
`cp.args`, logs a header line, stores the test name as the correlation
token and returns 1; otherwise returns 0 leaving everything unchanged. -/
def next_test (suite : Testsuite) (cp : ChildProcess) (err : String) :
    NextTestResult :=
  if h : suite.tests.length ≤ suite.next then
    { ret := 0, suite := suite, cp := cp, err := err, task_cb := none }
  else
    let test := suite.tests.get ⟨suite.next, by omega⟩
    let args := cp.args ++ ["sh", test]
    let args := if suite.quiet then args ++ ["--quiet"] else args
    let args := if suite.immediate then args ++ ["-i"] else args
    let args := if suite.verbose then args ++ ["-v"] else args
    let args := if suite.trace then args ++ ["-x"] else args
    { ret := 1
      suite := { suite with next := suite.next + 1 }
      cp := { cp with args := args }
      err := err ++ "Output of \x27" ++ test ++ "\x27:\n"
      task_cb := some test }

/-- Result of one `test_finished` call. -/
structure TestFinishedResult where
  ret : Int
  err : String
  suite : Testsuite
deriving Repr, DecidableEq

/-- Embedding of `test_finished` (test-run-command.c): on a nonzero exit
status appends the test name of the token to `suite.failed`; always logs a
FAIL/SUCCESS line and returns 0. -/
def test_finished (result : Int) (err : String) (suite : Testsuite)
    (name : String) : TestFinishedResult :=
  { ret := 0
    err := err ++ (if result ≠ 0 then "FAIL" else "SUCCESS") ++
      ": \x27" ++ name ++ "\x27\n"
    suite :=
      if result ≠ 0 then { suite with failed := suite.failed ++ [name] }
      else suite }

/-- Result of one `test_failed` call. -/
structure TestFailedResult where
  ret : Int
  out : String
  suite : Testsuite
deriving Repr, DecidableEq

/-- Embedding of `test_failed` (test-run-command.c), the start-failure
handler of the testsuite scenario: records the test name of the token in
`suite.failed`, logs a FAILED TO START line and returns 0. -/
def test_failed (out : String) (suite : Testsuite) (name : String) :
    TestFailedResult :=
  { ret := 0
    out := out ++ "FAILED TO START: \x27" ++ name ++ "\x27\n"
    suite := { suite with failed := suite.failed ++ [name] } }

/-- The concurrency limit `testsuite` (test-run-command.c) hands to
`run_processes_parallel`, as a function of the parsed `--jobs` value, the
CPU count returned by `online_cpus()` and the number of discovered tests:
a non-positive `--jobs` is replaced by the CPU count, an empty test list
dies (`none`), and the limit is clamped to the test count. -/
def testsuite_limit (max_jobs cpus : Int) (ntests : Nat) : Option Int :=
  let mj := if max_jobs ≤ 0 then cpus else max_jobs
  if ntests = 0 then none
  else some (if mj > (ntests : Int) then (ntests : Int) else mj)

/-- The value `testsuite` (test-run-command.c) returns, as a function of
what `run_processes_parallel` returned and the final failed list: `ret` is
forced to 1 when any test failed, and the function returns `!!ret`. -/
def testsuite_ret (run_ret : Int) (failed : List String) : Int :=
  let ret := if 0 < failed.length then 1 else run_ret
  if ret = 0 then 0 else 1

/-! ### Iterated calls to `parallel_next`

The global `number_callbacks` persists between calls (and between runs of
the engine); these definitions thread it through a sequence of calls.  The
engine hands each call a slot-local child process and output buffer, so a
call sequence is a list of `(cp, err)` pairs. -/

/-- The value of the global `number_callbacks` after a sequence of
`parallel_next` calls starting from counter `c`. -/
def parallel_next_counter (d : ChildProcess) :
    List (ChildProcess × String) → Nat → Nat
  | [], c => c
  | call :: rest, c =>
      parallel_next_counter d rest
        (parallel_next c call.1 call.2 d).number_callbacks

/-- The final counter and the number of tasks yielded (calls returning 1)
after `k` calls to `parallel_next` starting from counter `c`.  The engine
hands each call a fresh slot-local child process and buffer; the counter
and the return code do not depend on them. -/
def run_parallel_next (d : ChildProcess) : Nat → Nat → Nat × Nat
  | c, 0 => (c, 0)
  | c, k + 1 =>
      let r := parallel_next c { argv := [], args := [] } "" d
      let p := run_parallel_next d r.number_callbacks k
      (p.1, (if r.ret = 1 then 1 else 0) + p.2)

/-! ### Trace model of the testsuite callbacks

`run_processes_parallel` invokes the three testsuite callbacks one at a
time from a single control flow, passing each completion or failure
handler the correlation token stored by the `next_test` call of its task.  A run
is modelled as a list of serialized callback invocations; validity of a
trace states exactly the token-correlation guarantee of the engine: every token
handed to a handler was previously offered by `next_test` (i.e. lies in
the already-dequeued part of the test list). -/

/-- One serialized callback invocation of a testsuite run. -/
inductive TestEvent where
  | source_call
  | finished_call (result : Int) (tok : String)
  | failed_call (tok : String)
deriving Repr, DecidableEq

/-- The tokens `next_test` has offered so far: the already-dequeued part
of the test list. -/
def offered_tokens (suite : Testsuite) : List String :=
  suite.tests.take suite.next

/-- The suite state after one callback invocation (the engine hands
`next_test` a slot-local child process and buffer; only the suite state is
threaded through). -/
def step_event (s : Testsuite) (e : TestEvent) : Testsuite :=
  match e with
  | .source_call => (next_test s { argv := [], args := [] } "").suite
  | .finished_call r tok => (test_finished r "" s tok).suite
  | .failed_call tok => (test_failed "" s tok).suite

/-- The suite state after a list of callback invocations. -/
def run_events (s : Testsuite) : List TestEvent → Testsuite
  | [] => s
  | e :: es => run_events (step_event s e) es

/-- A trace is valid when every token handed to `test_finished` or
`test_failed` was previously offered by `next_test`. -/
def valid_events (s : Testsuite) : List TestEvent → Bool
  | [] => true
  | e :: es =>
      (match e with
       | .source_call => true
       | .finished_call _ tok => (offered_tokens s).contains tok
       | .failed_call tok => (offered_tokens s).contains tok) &&
      valid_events (step_event s e) es

/-! ### Spec-modelled Scheduler Core

`run_processes_parallel` itself (run-command.c) is not part of this
repository slice; the claims about whole runs are settled against a model
of the Scheduler Core written from the specification. -/

/-- The three caller-supplied callbacks of a run, over a context type `σ`
and a correlation-token type `τ`.  Each returns its updated context; the
handlers additionally return their continue/abort verdict (`true` =
abort requested). -/
structure ParallelCallbacks (σ τ : Type) where
  get_next_task : σ → Option τ × σ
  start_failure : σ → τ → Bool × σ
  on_task_finished : Int → σ → τ → Bool × σ

/-- The state of the Scheduler Core during a run. -/
structure RunState (σ τ : Type) where
  ctx : σ
  active : List (τ × Int)
  nSpawned : Nat
  srcExhausted : Bool
  aborted : Bool
  status : Int
  nCompletion : Nat
  nFailure : Nat

/-- Modelled from the spec: the Scheduler Core loop of
`run_processes_parallel` (run-command.c is absent from the repository
slice; only this harness is present).  Each fuel step performs one FILLING
action — while not aborting, not exhausted and below the concurrency
limit, request a task from the Task Source; exhaustion is sticky (the
source is never polled again); a spawn outcome of `none` from the oracle
is a spawn failure routed to the Failure Handler without occupying a slot
— or else one WAITING/DISPATCHING action: the first active slot finishes
with its predetermined exit status and is routed to the Completion
Handler.  A handler verdict of `true` sets the abort flag; a task failure
or spawn failure makes the running status nonzero; the loop is DONE when
no slot is active and no task can be requested. -/
def run_pp_loop {σ τ : Type} (cb : ParallelCallbacks σ τ)
    (oracle : Nat → Option Int) (limit : Nat) :
    Nat → RunState σ τ → RunState σ τ
  | 0, st => st
  | fuel + 1, st =>
      if ¬st.aborted ∧ ¬st.srcExhausted ∧ st.active.length < limit then
        match cb.get_next_task st.ctx with
        | (none, ctx1) =>
            run_pp_loop cb oracle limit fuel
              { st with ctx := ctx1, srcExhausted := true }
        | (some tok, ctx1) =>
            match oracle st.nSpawned with
            | none =>
                let fr := cb.start_failure ctx1 tok
                run_pp_loop cb oracle limit fuel
                  { st with
                      ctx := fr.2
                      nSpawned := st.nSpawned + 1
                      nFailure := st.nFailure + 1
                      status := 1
                      aborted := st.aborted || fr.1 }
            | some code =>
                run_pp_loop cb oracle limit fuel
                  { st with
                      ctx := ctx1
                      active := st.active ++ [(tok, code)]
                      nSpawned := st.nSpawned + 1 }
      else
        match st.active with
        | [] => st
        | (tok, code) :: rest =>
            let cr := cb.on_task_finished code st.ctx tok
            run_pp_loop cb oracle limit fuel
              { st with
                  ctx := cr.2
                  active := rest
                  nCompletion := st.nCompletion + 1
                  status := if code = 0 then st.status else 1
                  aborted := st.aborted || cr.1 }

/-- Modelled from the spec: run a batch.  Returns the aggregate status
(nonzero when any task exited with failure, any spawn failed, or any
handler requested abort), the final context, and the number of Completion
Handler and Failure Handler invocations. -/
def run_processes_parallel_spec {σ τ : Type} (fuel limit : Nat)
    (cb : ParallelCallbacks σ τ) (oracle : Nat → Option Int) (ctx : σ) :
    Int × σ × Nat × Nat :=
  let st := run_pp_loop cb oracle limit fuel
    { ctx := ctx, active := [], nSpawned := 0, srcExhausted := false,
      aborted := false, status := 0, nCompletion := 0, nFailure := 0 }
  (if st.aborted then 1 else st.status, st.ctx, st.nCompletion, st.nFailure)

/-- Task Source adapter for `no_job`: a Task Source return of 0 signals
exhaustion, and `no_job` returns 0 on every call (the engine hands it a
fresh slot-local child process and output buffer). -/
def no_job_source (cb : ChildProcess) : ChildProcess → Option Unit × ChildProcess :=
  fun ctx =>
    (if (no_job { argv := [], args := [] } "" cb).ret = 0 then none
     else some (), ctx)

/-- The option flags `next_test` pushes after `sh <test>`, in push
order. -/
def suite_flags (suite : Testsuite) : List String :=
  (if suite.quiet then ["--quiet"] else []) ++
  (if suite.immediate then ["-i"] else []) ++
  (if suite.verbose then ["-v"] else []) ++
  (if suite.trace then ["-x"] else [])

/-! ## Helper lemmas -/

/-- With the counter at 4 or more, `parallel_next` declines and changes
nothing. -/
theorem parallel_next_of_ge {c : Nat} (cp : ChildProcess) (err : String)
    (d : ChildProcess) (h : 4 ≤ c) :
    parallel_next c cp err d =
      { ret := 0, number_callbacks := c, cp := cp, err := err } := by
  simp [parallel_next, h]

/-- With the counter below 4, `parallel_next` yields a task: it copies the
context argv into the child, logs the preload line and bumps the
counter. -/
theorem parallel_next_of_lt {c : Nat} (cp : ChildProcess) (err : String)
    (d : ChildProcess) (h : c < 4) :
    parallel_next c cp err d =
      { ret := 1
        number_callbacks := c + 1
        cp := { cp with args := cp.args ++ d.argv }
        err := err ++ "preloaded output of a child\n" } := by
  simp [parallel_next, Nat.not_le.mpr h]

/-! ## Claims -/

/-- C1: In the testsuite operation, after option parsing and test
discovery, the concurrency limit handed to `run_processes_parallel` is
always at least one (a zero or negative `--jobs` value is replaced by the
CPU count — itself at least one — before running, never propagated as a
runtime failure) and never exceeds the number of discovered tests. -/
theorem C1_testsuite_limit_bounds (max_jobs cpus : Int) (ntests : Nat)
    (L : Int) (hcpus : 1 ≤ cpus)
    (hL : testsuite_limit max_jobs cpus ntests = some L) :
    1 ≤ L ∧ L ≤ (ntests : Int) := by
  simp only [testsuite_limit] at hL
  split at hL
  · simp at hL
  · rename_i h0
    simp only [Option.some.injEq] at hL
    subst hL
    refine ⟨?_, ?_⟩ <;> split_ifs <;> omega

/-- Witness for C1 at `--jobs 0`, 8 CPUs and 5 discovered tests. -/
theorem C1_testsuite_limit_bounds_witness :
    1 ≤ (8 : Int) ∧ testsuite_limit 0 8 5 = some 5 ∧
      (1 ≤ (5 : Int) ∧ (5 : Int) ≤ ((5 : Nat) : Int)) :=
  ⟨by decide, by decide, C1_testsuite_limit_bounds 0 8 5 5 (by decide) (by decide)⟩

/-- C4: the `task_finished` completion handler used by the
run-command-abort and run-command-no-jobs scenarios requests abort on
every invocation: for every exit status, buffer, context and token it
appends "asking for a quick stop" to the buffer and returns 1. -/
theorem C4_task_finished_always_aborts (result : Int) (err : String)
    (pp_cb : ChildProcess) (pp_task_cb : Option String) :
    task_finished result err pp_cb pp_task_cb =
      { ret := 1, err := err ++ "asking for a quick stop\n" } := rfl

/-- C6: the `test_failed` failure handler never silently drops a spawn
failure and never aborts the batch: for every context and token it appends
the test name of the token to the failed list, writes the FAILED TO START
line into the output buffer, and returns 0 (continue). -/
theorem C6_test_failed_records_and_continues (out : String)
    (suite : Testsuite) (name : String) :
    test_failed out suite name =
      { ret := 0
        out := out ++ "FAILED TO START: \x27" ++ name ++ "\x27\n"
        suite := { suite with failed := suite.failed ++ [name] } } := rfl

/-- C7: the `test_finished` completion handler records a task failure
without making it fatal: it appends the test name of the token to the
failed list exactly when the exit status is nonzero (and leaves the suite
untouched exactly when it is zero), writes a FAIL or SUCCESS line naming
the test, and always returns 0 (never requests abort). -/
theorem C7_test_finished_records_iff_nonzero (result : Int) (err : String)
    (suite : Testsuite) (name : String) :
    (test_finished result err suite name).ret = 0 ∧
    ((test_finished result err suite name).suite.failed =
        suite.failed ++ [name] ↔ result ≠ 0) ∧
    ((test_finished result err suite name).suite = suite ↔ result = 0) ∧
    (test_finished result err suite name).err =
      err ++ (if result ≠ 0 then "FAIL" else "SUCCESS") ++
        ": \x27" ++ name ++ "\x27\n" := by
  obtain ⟨tests, failed, nx, q, i, v, t⟩ := suite
  by_cases h : result = 0
  · subst h
    simp [test_finished]
  · simp [test_finished, h]

/-- C8: the value the testsuite operation returns reflects whether any
task failed: it is exactly 1 when `run_processes_parallel` returned
nonzero or the failed list is non-empty, and 0 otherwise. -/
theorem C8_testsuite_return (run_ret : Int) (failed : List String) :
    testsuite_ret run_ret failed =
      if run_ret ≠ 0 ∨ 0 < failed.length then 1 else 0 := by
  simp only [testsuite_ret]
  split_ifs <;> omega

/-- The counter after a call sequence starting at `c ≤ 4` is the start
value plus the number of calls, capped at 4. -/
theorem parallel_next_counter_min (d : ChildProcess)
    (calls : List (ChildProcess × String)) :
    ∀ c, c ≤ 4 → parallel_next_counter d calls c = min (c + calls.length) 4 := by
  induction calls with
  | nil =>
      intro c hc
      simp only [parallel_next_counter, List.length_nil]
      omega
  | cons call rest ih =>
      intro c hc
      by_cases h4 : 4 ≤ c
      · simp only [parallel_next_counter, parallel_next_of_ge _ _ _ h4]
        rw [ih c hc]
        simp only [List.length_cons]
        omega
      · simp only [parallel_next_counter,
          parallel_next_of_lt _ _ _ (by omega : c < 4)]
        rw [ih (c + 1) (by omega)]
        simp only [List.length_cons]
        omega

/-- C2: the `parallel_next` task source offers exactly 4 tasks before
exhaustion: over any sequence of calls starting from a zero counter the
counter equals the number of calls capped at 4, so each of the first four
calls sees a counter below 4 and returns 1 after copying the context argv
into the child and appending the preload line to the output buffer, while
every call made once the counter has reached 4 returns 0 without modifying
the child process or the buffer. -/
theorem C2_parallel_next_four_tasks (d cp : ChildProcess) (err : String)
    (calls : List (ChildProcess × String)) (n : Nat)
    (hk : calls.length < 4) (hn : 4 ≤ n) :
    parallel_next_counter d calls 0 = calls.length ∧
    parallel_next calls.length cp err d =
      { ret := 1
        number_callbacks := calls.length + 1
        cp := { cp with args := cp.args ++ d.argv }
        err := err ++ "preloaded output of a child\n" } ∧
    parallel_next n cp err d =
      { ret := 0, number_callbacks := n, cp := cp, err := err } := by
  refine ⟨?_, parallel_next_of_lt cp err d hk, parallel_next_of_ge cp err d hn⟩
  rw [parallel_next_counter_min d calls 0 (by omega)]
  omega

/-- Witness for C2: one earlier call, so the counter is 1; the second call
still yields a task, and a counter of 5 yields none. -/
theorem C2_parallel_next_four_tasks_witness :
    ([((⟨[], []⟩ : ChildProcess), "")] : List (ChildProcess × String)).length < 4 ∧
    (4 : Nat) ≤ 5 ∧
    parallel_next_counter ⟨["echo", "hi"], []⟩ [(⟨[], []⟩, "")] 0 = 1 :=
  ⟨by decide, by decide,
   (C2_parallel_next_four_tasks ⟨["echo", "hi"], []⟩ ⟨[], []⟩ ""
      [(⟨[], []⟩, "")] 5 (by decide) (by decide)).1⟩

/-- Over a run of `k` calls, the counter advances by exactly the number of
tasks yielded. -/
theorem run_parallel_next_counter_eq (d : ChildProcess) :
    ∀ k c, (run_parallel_next d c k).1 = c + (run_parallel_next d c k).2 := by
  intro k
  induction k with
  | zero => intro c; simp [run_parallel_next]
  | succ k ih =>
      intro c
      by_cases h4 : 4 ≤ c
      · simp only [run_parallel_next, parallel_next_of_ge _ _ _ h4]
        rw [ih c]
        simp
      · simp only [run_parallel_next,
          parallel_next_of_lt _ _ _ (by omega : c < 4)]
        rw [ih (c + 1)]
        simp
        omega

/-- The counter never passes 4 when it starts at 4 or below. -/
theorem run_parallel_next_counter_le (d : ChildProcess) :
    ∀ k c, c ≤ 4 → (run_parallel_next d c k).1 ≤ 4 := by
  intro k
  induction k with
  | zero => intro c hc; simpa [run_parallel_next] using hc
  | succ k ih =>
      intro c hc
      by_cases h4 : 4 ≤ c
      · simp only [run_parallel_next, parallel_next_of_ge _ _ _ h4]
        exact ih c hc
      · simp only [run_parallel_next,
          parallel_next_of_lt _ _ _ (by omega : c < 4)]
        exact ih (c + 1) (by omega)

/-- A run started with the counter at 4 or more yields nothing and leaves
the counter alone. -/
theorem run_parallel_next_exhausted (d : ChildProcess) :
    ∀ k c, 4 ≤ c → run_parallel_next d c k = (c, 0) := by
  intro k
  induction k with
  | zero => intro c hc; rfl
  | succ k ih =>
      intro c hc
      simp only [run_parallel_next, parallel_next_of_ge _ _ _ hc, ih c hc]
      simp

/-- C9: the exhaustion counter of `parallel_next` (`number_callbacks`) is
file-scoped global state that is never reset, so its four-task budget is
shared across successive `run_processes_parallel` invocations in the same
process: for any two successive runs the total number of tasks yielded
over both never exceeds 4, and a run started once the counter has reached
4 is offered zero tasks. -/
theorem C9_number_callbacks_shared_across_runs (d : ChildProcess)
    (k₁ k₂ : Nat) :
    (run_parallel_next d 0 k₁).2 +
      (run_parallel_next d (run_parallel_next d 0 k₁).1 k₂).2 ≤ 4 ∧
    (run_parallel_next d 4 k₂).2 = 0 := by
  constructor
  · have h1 := run_parallel_next_counter_eq d k₁ 0
    have h1le := run_parallel_next_counter_le d k₁ 0 (by omega)
    have h2 := run_parallel_next_counter_eq d k₂ (run_parallel_next d 0 k₁).1
    have h2le := run_parallel_next_counter_le d k₂ (run_parallel_next d 0 k₁).1 h1le
    omega
  · rw [run_parallel_next_exhausted d k₂ 4 (by omega)]

/-- Witness for C9: a first run of 5 calls uses the whole budget; a second
run of 3 calls gets nothing. -/
theorem C9_number_callbacks_shared_across_runs_witness :
    (run_parallel_next ⟨["echo", "hi"], []⟩ 0 5).2 +
      (run_parallel_next ⟨["echo", "hi"], []⟩
        (run_parallel_next ⟨["echo", "hi"], []⟩ 0 5).1 3).2 ≤ 4 ∧
    (run_parallel_next ⟨["echo", "hi"], []⟩ 4 3).2 = 0 :=
  C9_number_callbacks_shared_across_runs ⟨["echo", "hi"], []⟩ 5 3

/-- C3: the `next_test` task source yields the tests of the suite in list
order, each exactly once: a successful call dequeues `tests[next]`,
returning 1, pushing `sh <test>` plus the option flags as the command,
storing that same test name as the correlation token, logging its header
line and advancing `next` by one; and once `next` has reached the length
of the test list every further call returns 0 changing nothing, so
repeated calls after exhaustion are safe. -/
theorem C3_next_test_in_order (suite : Testsuite) (cp : ChildProcess)
    (err : String) :
    (∀ h : suite.next < suite.tests.length,
      (next_test suite cp err).ret = 1 ∧
      (next_test suite cp err).task_cb =
        some (suite.tests.get ⟨suite.next, h⟩) ∧
      (next_test suite cp err).cp.args =
        cp.args ++ ["sh", suite.tests.get ⟨suite.next, h⟩] ++
          suite_flags suite ∧
      (next_test suite cp err).err =
        err ++ "Output of \x27" ++ suite.tests.get ⟨suite.next, h⟩ ++
          "\x27:\n" ∧
      (next_test suite cp err).suite =
        { suite with next := suite.next + 1 }) ∧
    (suite.tests.length ≤ suite.next →
      next_test suite cp err =
        { ret := 0, suite := suite, cp := cp, err := err,
          task_cb := none }) := by
  constructor
  · intro h
    have hn : ¬ suite.tests.length ≤ suite.next := by omega
    by_cases hq : suite.quiet <;> by_cases hi : suite.immediate <;>
      by_cases hv : suite.verbose <;> by_cases ht : suite.trace <;>
      simp [next_test, suite_flags, hn, hq, hi, hv, ht, List.append_assoc]
  · intro h
    simp [next_test, h]

/-- Witness for C3: a two-test suite at position 0 dequeues the first
test, and a suite past its end declines. -/
theorem C3_next_test_in_order_witness :
    (0 : Nat) < (["t0001-aa.sh", "t0002-bb.sh"] : List String).length ∧
    (next_test ⟨["t0001-aa.sh", "t0002-bb.sh"], [], 0, false, false, false, false⟩
        ⟨[], []⟩ "").task_cb = some "t0001-aa.sh" :=
  ⟨by decide,
   ((C3_next_test_in_order
      ⟨["t0001-aa.sh", "t0002-bb.sh"], [], 0, false, false, false, false⟩
      ⟨[], []⟩ "").1 (by decide)).2.1⟩

/-- Once the Task Source is exhausted and no slot is active, the loop is
DONE: the state is returned unchanged for any remaining fuel. -/
theorem run_pp_loop_done {σ τ : Type} (cb : ParallelCallbacks σ τ)
    (oracle : Nat → Option Int) (limit fuel : Nat) (st : RunState σ τ)
    (he : st.srcExhausted = true) (ha : st.active = []) :
    run_pp_loop cb oracle limit fuel st = st := by
  cases fuel with
  | zero => rfl
  | succ fuel => simp [run_pp_loop, he, ha]

/-- C5: the `no_job` task source signals exhaustion on every invocation —
it appends the no-further-jobs line to the buffer and returns 0, for every
child process, buffer and context — so a run using it offers zero tasks up
front, completes immediately with a success status, leaves the run context
untouched, and never invokes the Completion or Failure Handler (both
invocation counts are 0), whatever the fuel, concurrency limit, handlers
and spawn outcomes. -/
theorem C5_no_job_immediate_success (cp : ChildProcess) (err : String)
    (cb : ChildProcess) (fuel limit : Nat)
    (fh : ChildProcess → Unit → Bool × ChildProcess)
    (dh : Int → ChildProcess → Unit → Bool × ChildProcess)
    (oracle : Nat → Option Int) (ctx : ChildProcess) :
    no_job cp err cb =
      { ret := 0, cp := cp, err := err ++ "no further jobs available\n" } ∧
    run_processes_parallel_spec fuel limit
      { get_next_task := no_job_source cb, start_failure := fh,
        on_task_finished := dh } oracle ctx = (0, ctx, 0, 0) := by
  refine ⟨rfl, ?_⟩
  cases fuel with
  | zero => rfl
  | succ fuel =>
      cases limit with
      | zero => rfl
      | succ m =>
          have key : run_pp_loop
              { get_next_task := no_job_source cb, start_failure := fh,
                on_task_finished := dh }
              oracle (m + 1) (fuel + 1)
              { ctx := ctx, active := [], nSpawned := 0, srcExhausted := false,
                aborted := false, status := 0, nCompletion := 0,
                nFailure := 0 } =
              { ctx := ctx, active := [], nSpawned := 0, srcExhausted := true,
                aborted := false, status := 0, nCompletion := 0,
                nFailure := 0 } := by
            rw [run_pp_loop]
            rw [if_pos (by simp)]
            exact run_pp_loop_done _ _ _ fuel _ rfl rfl
          simp only [run_processes_parallel_spec, key]
          rfl

/-- No callback invocation changes the test list of the suite. -/
theorem step_event_tests (s : Testsuite) (e : TestEvent) :
    (step_event s e).tests = s.tests := by
  cases e with
  | source_call =>
      simp only [step_event, next_test]
      split
      · rfl
      · rfl
  | finished_call r tok =>
      simp only [step_event, test_finished]
      split
      · rfl
      · rfl
  | failed_call tok => rfl

/-- A valid callback invocation only ever adds already-offered tokens —
hence elements of the test list — to the failed list. -/
theorem step_event_failed_sub (s : Testsuite) (e : TestEvent)
    (hv : (match e with
           | TestEvent.source_call => true
           | TestEvent.finished_call _ tok => (offered_tokens s).contains tok
           | TestEvent.failed_call tok => (offered_tokens s).contains tok) =
          true)
    (hf : ∀ x ∈ s.failed, x ∈ s.tests) :
    ∀ x ∈ (step_event s e).failed, x ∈ s.tests := by
  cases e with
  | source_call =>
      intro x hx
      have hfe : (step_event s TestEvent.source_call).failed = s.failed := by
        simp only [step_event, next_test]
        split
        · rfl
        · rfl
      rw [hfe] at hx
      exact hf x hx
  | finished_call r tok =>
      have htok : tok ∈ s.tests :=
        List.take_subset _ _ (by simpa [offered_tokens] using hv)
      intro x hx
      simp only [step_event, test_finished] at hx
      split at hx
      · simp only [List.mem_append, List.mem_singleton] at hx
        rcases hx with hx | hx
        · exact hf x hx
        · exact hx ▸ htok
      · exact hf x hx
  | failed_call tok =>
      have htok : tok ∈ s.tests :=
        List.take_subset _ _ (by simpa [offered_tokens] using hv)
      intro x hx
      simp only [step_event, test_failed, List.mem_append,
        List.mem_singleton] at hx
      rcases hx with hx | hx
      · exact hf x hx
      · exact hx ▸ htok

/-- Along a valid trace the test list is preserved and the failed list
stays inside it. -/
theorem run_events_failed_sub (es : List TestEvent) :
    ∀ s : Testsuite, valid_events s es = true →
      (∀ x ∈ s.failed, x ∈ s.tests) →
      (run_events s es).tests = s.tests ∧
      ∀ x ∈ (run_events s es).failed, x ∈ s.tests := by
  induction es with
  | nil => exact fun s _ hf => ⟨rfl, hf⟩
  | cons e rest ih =>
      intro s hv hf
      simp only [valid_events, Bool.and_eq_true] at hv
      have ht := step_event_tests s e
      have hstep := step_event_failed_sub s e hv.1 hf
      have hrec := ih (step_event s e) hv.2 (by rw [← ht] at hstep; exact hstep)
      refine ⟨?_, ?_⟩
      · simp only [run_events]
        rw [hrec.1, ht]
      · intro x hx
        simp only [run_events] at hx
        have := hrec.2 x hx
        rw [ht] at this
        exact this

/-- C10: token correlation round-trip in the testsuite scenario: the
correlation token `next_test` stores is exactly the test name it dequeued,
and along any serialized trace in which every token handed to
`test_finished` or `test_failed` was previously offered by `next_test`
(the guarantee the engine provides), starting from a suite whose failed
list is inside its test list, the test list never changes and every name
ever appended to the failed list is an element of the test list. -/
theorem C10_token_round_trip (s : Testsuite) (es : List TestEvent)
    (cp : ChildProcess) (err : String)
    (hv : valid_events s es = true)
    (hf : ∀ x ∈ s.failed, x ∈ s.tests) :
    (∀ h : s.next < s.tests.length,
      (next_test s cp err).task_cb = some (s.tests.get ⟨s.next, h⟩)) ∧
    (run_events s es).tests = s.tests ∧
    ∀ x ∈ (run_events s es).failed, x ∈ s.tests := by
  have hrun := run_events_failed_sub es s hv hf
  refine ⟨?_, hrun.1, hrun.2⟩
  intro h
  simp [next_test, Nat.not_le.mpr h]

/-- Witness for C10: a one-test suite, a trace that offers the test and
reports it failed; the recorded failure is the offered test. -/
theorem C10_token_round_trip_witness :
    valid_events ⟨["t0001-xx.sh"], [], 0, false, false, false, false⟩
        [TestEvent.source_call, TestEvent.finished_call 1 "t0001-xx.sh"] =
      true ∧
    ∀ x ∈ (run_events ⟨["t0001-xx.sh"], [], 0, false, false, false, false⟩
        [TestEvent.source_call,
         TestEvent.finished_call 1 "t0001-xx.sh"]).failed,
      x ∈ (["t0001-xx.sh"] : List String) :=
  ⟨by decide,
   (C10_token_round_trip ⟨["t0001-xx.sh"], [], 0, false, false, false, false⟩
      [TestEvent.source_call, TestEvent.finished_call 1 "t0001-xx.sh"]
      ⟨[], []⟩ "" (by decide) (by simp)).2.2⟩
